import Mathlib

/-!
Verification of the azure-dev framework-service build pipeline
(`cli/azd/pkg/project`): language parsing, the docker composite
framework service, tag resolution and the progress-reporting task.

Source files present: `framework_service.go` (language kinds, the
`FrameworkService` and `CompositeFrameworkService` contracts) and
`framework_service_docker_test.go` (behavioural tests of the docker
composite).  The docker implementation itself
(`framework_service_docker.go`), the `async` task package and the
`environment` package are not part of the source tree, so those parts
are modelled from the specification, as marked on each definition.
-/

namespace AzdProject

/-! ## Language kinds (`framework_service.go`, lines 14-46) -/

/-- A `ServiceLanguageKind` is a string-typed enumeration. -/
abbrev ServiceLanguageKind := String

def ServiceLanguageDotNet : ServiceLanguageKind := "dotnet"

def ServiceLanguageCsharp : ServiceLanguageKind := "csharp"

def ServiceLanguageFsharp : ServiceLanguageKind := "fsharp"

def ServiceLanguageJavaScript : ServiceLanguageKind := "js"

def ServiceLanguageTypeScript : ServiceLanguageKind := "ts"

def ServiceLanguagePython : ServiceLanguageKind := "python"

def ServiceLanguageJava : ServiceLanguageKind := "java"

def ServiceLanguageDocker : ServiceLanguageKind := "docker"

/-- `parseServiceLanguage` from `framework_service.go` lines 27-46: the
`"py"` alias maps to python; the seven supported kinds are returned
unchanged (docker is excluded since it is implicitly derived, not an
actual language); anything else yields the empty kind with the
`unsupported language` error.  The Go pair `(kind, error)` is embedded
as `ServiceLanguageKind × Option String` with `none` for a nil error. -/
def parseServiceLanguage (kind : ServiceLanguageKind) :
    ServiceLanguageKind × Option String :=
  if kind = "py" then
    (ServiceLanguagePython, none)
  else if kind = ServiceLanguageDotNet ∨ kind = ServiceLanguageCsharp ∨
      kind = ServiceLanguageFsharp ∨ kind = ServiceLanguageJavaScript ∨
      kind = ServiceLanguageTypeScript ∨ kind = ServiceLanguagePython ∨
      kind = ServiceLanguageJava then
    (kind, none)
  else
    ("", some ("unsupported language '" ++ kind ++ "'"))

/-- The set of language kinds accepted (without aliasing) by
`parseServiceLanguage`: the declared kinds minus docker. -/
def supportedLanguageKinds : List ServiceLanguageKind :=
  [ServiceLanguageDotNet, ServiceLanguageCsharp, ServiceLanguageFsharp,
   ServiceLanguageJavaScript, ServiceLanguageTypeScript,
   ServiceLanguagePython, ServiceLanguageJava]

/-! ## Expandable template values

`ExpandableString` and its `Envsubst` evaluation live in packages that
are not part of the source tree, so they are modelled from the spec
(§3, §4.1): a raw string whose placeholder references are resolved
against a key/value environment at evaluation time; literal text is
copied verbatim.  The environment lookup is a total function (a
`Getenv`-style lookup returning the empty string for an absent name),
so evaluation itself is total and pure. -/

/-- The opening brace character of a placeholder. -/
def lcurly : Char := Char.ofNat 123

/-- The closing brace character of a placeholder. -/
def rcurly : Char := Char.ofNat 125

/-- Modelled from the spec (§3, §4.1): placeholder substitution over the
characters of a template.  A dollar sign followed by an open brace
starts a named substitution, resolved from the environment; every other
character is literal text copied verbatim. -/
def envsubstChars (getenv : String → String) : List Char → List Char
  | [] => []
  | [c] => [c]
  | c :: c2 :: cs =>
    if c = '$' ∧ c2 = lcurly then
      let name := cs.takeWhile (fun ch => ch ≠ rcurly)
      let rest := (cs.dropWhile (fun ch => ch ≠ rcurly)).tail
      (getenv (String.mk name)).data ++ envsubstChars getenv rest
    else
      c :: envsubstChars getenv (c2 :: cs)
termination_by l => l.length
decreasing_by
  · simp only [List.length_cons]
    have h1 : (cs.dropWhile (fun ch => ch ≠ rcurly)).tail.length ≤
        (cs.dropWhile (fun ch => ch ≠ rcurly)).length := by
      cases cs.dropWhile (fun ch => ch ≠ rcurly) <;> simp
    have h2 : (cs.dropWhile (fun ch => ch ≠ rcurly)).length ≤ cs.length :=
      (List.dropWhile_sublist _).length_le
    omega
  · simp only [List.length_cons]
    omega

/-- Modelled from the spec (§4.1): `Evaluate(environment)` on an
expandable template value. -/
def Envsubst (raw : String) (getenv : String → String) : String :=
  String.mk (envsubstChars getenv raw.data)

/-! ## Service configuration and environment (consumed read-only)

The `ServiceConfig`, `DockerProjectOptions` and `environment.Environment`
types live outside the source tree; they are modelled from the spec
(§3 Service Configuration, Environment; §6 configuration and
environment collaborators). -/

/-- Modelled from the spec (§6): the docker option block of a service
configuration — dockerfile path, build context, platform and an
optional expandable tag template.  The empty string is the unset (Go
zero) value of each field. -/
structure DockerProjectOptions where
  path : String := ""
  context : String := ""
  platform : String := ""
  tag : String := ""
  deriving DecidableEq, Repr

/-- Modelled from the spec (§6): the read-only service descriptor — the
project name, the service name and the docker option block (the parts
the modelled operations consume). -/
structure ServiceConfig where
  projectName : String
  name : String
  docker : DockerProjectOptions
  deriving DecidableEq, Repr

/-- The well-known environment key of the container registry endpoint. -/
def ContainerRegistryEndpointEnvVarName : String :=
  "AZURE_CONTAINER_REGISTRY_ENDPOINT"

/-- Modelled from the spec (§3, §6): the environment collaborator — a
key/value store read by name, plus an environment name.  A missing key
yields `none` and must be treated as a recoverable condition. -/
structure Environment where
  name : String
  values : String → Option String

/-- `Getenv`-style lookup: the stored value, or `""` when absent. -/
def Environment.getenv (env : Environment) (key : String) : String :=
  (env.values key).getD ""

/-! ## Tag/name resolution and the package stage (docker composite)

`framework_service_docker.go` is not part of the source tree; the tag
resolution and the package algorithm are modelled from the spec (§4.4
`Package`, §4.5 Tag/Name Resolution). -/

/-- Modelled from the spec (§4.5): if the service configuration supplies
an explicit tag template, evaluate it against the environment and use
the result verbatim; otherwise construct the default tag
`<registryEndpoint>/<projectName>/<serviceName>-<environmentName>:azd-deploy-<unixTimestamp>`
with the timestamp taken from the injected clock, failing with the
missing-registry-endpoint configuration error when the environment
lacks a registry endpoint value. -/
def resolveImageTag (cfg : ServiceConfig) (env : Environment)
    (clockUnix : Int) : Except String String :=
  if cfg.docker.tag ≠ "" then
    Except.ok (Envsubst cfg.docker.tag env.getenv)
  else
    match env.values ContainerRegistryEndpointEnvVarName with
    | none => Except.error "could not determine container registry endpoint"
    | some endpoint =>
      Except.ok (endpoint ++ "/" ++ cfg.projectName ++ "/" ++ cfg.name ++
        "-" ++ env.name ++ ":azd-deploy-" ++ toString clockUnix)

/-- The backend-specific detail payload of a container package result:
the registry login server and the fully-qualified image tag, carried
separately for downstream consumers. -/
structure DockerPackageResult where
  loginServer : String
  imageTag : String
  deriving DecidableEq, Repr

/-- A package result: the artifact locator (the fully-qualified tag)
plus the docker detail payload. -/
structure ServicePackageResult where
  packagePath : String
  details : DockerPackageResult
  deriving DecidableEq, Repr

/-- Modelled from the spec (§4.4 `Package`): resolve the target image
tag — a resolution failure aborts with that error and no tool
invocation — then invoke the image-tag tool as
`tag <sourceImageId> <fullyQualifiedTag>` and produce the package
result.  Returns the terminal outcome together with the list of
image-tag tool invocations (each an argument list). -/
def dockerPackage (cfg : ServiceConfig) (env : Environment)
    (clockUnix : Int) (buildImageId : String) :
    Except String ServicePackageResult × List (List String) :=
  match resolveImageTag cfg env clockUnix with
  | Except.error e => (Except.error e, [])
  | Except.ok tag =>
    (Except.ok
      { packagePath := tag
        details :=
          { loginServer := env.getenv ContainerRegistryEndpointEnvVarName
            imageTag := tag } },
     [["tag", buildImageId, tag]])

/-! ## The build stage of the docker composite -/

/-- Modelled from the spec (§4.4 step 3): the configured dockerfile path
and build context, defaulting to `./Dockerfile` and `.` respectively
when unspecified, with platform pinned to the host build architecture
unless overridden. -/
def getDockerOptionsWithDefaults (opts : DockerProjectOptions)
    (hostPlatform : String) : DockerProjectOptions :=
  { opts with
    path := if opts.path = "" then "./Dockerfile" else opts.path
    context := if opts.context = "" then "." else opts.context
    platform := if opts.platform = "" then hostPlatform else opts.platform }

/-- Modelled from the spec (§6): the image-build path invokes the tool
collaborator as `build -q -f <dockerfilePath> --platform <platform>
<buildContext>`. -/
def dockerBuildArgs (dockerfilePath platform buildContext : String) :
    List String :=
  ["build", "-q", "-f", dockerfilePath, "--platform", platform, buildContext]

/-- The argument list of the image-build invocation produced for a given
option block, after applying the defaults. -/
def dockerBuildInvocation (opts : DockerProjectOptions)
    (hostPlatform : String) : List String :=
  let o := getDockerOptionsWithDefaults opts hostPlatform
  dockerBuildArgs o.path o.platform o.context

/-- A build result: the artifact locator is the build output path (for
the docker composite, the produced image identifier). -/
structure ServiceBuildResult where
  buildOutputPath : String
  deriving DecidableEq, Repr

/-- The observable outcome of one progress-reporting task: the progress
messages it emitted, in emission order, and its terminal result. -/
structure TaskOutcome (R : Type) where
  progress : List String
  result : Except String R
  deriving Repr

/-- Modelled from the spec (§4.4 `Build`): delegate to the inner
framework's build and await it, forwarding every inner progress event
unchanged; if the inner build fails, fail immediately with the inner
error and attempt no image operation; on inner success emit the single
`Building docker image` progress event, invoke the image-build tool,
surface a tool failure verbatim, and on success yield a build result
whose artifact locator is the produced image identifier.  The tool
collaborator is a function from the argument list to the tool outcome;
the returned list collects the image-build invocations made. -/
def compositeBuild (inner : TaskOutcome ServiceBuildResult)
    (runDockerBuild : List String → Except String String)
    (opts : DockerProjectOptions) (hostPlatform : String) :
    TaskOutcome ServiceBuildResult × List (List String) :=
  match inner.result with
  | Except.error e => (⟨inner.progress, Except.error e⟩, [])
  | Except.ok _ =>
    let args := dockerBuildInvocation opts hostPlatform
    match runDockerBuild args with
    | Except.error e =>
      (⟨inner.progress ++ ["Building docker image"], Except.error e⟩, [args])
    | Except.ok imageId =>
      (⟨inner.progress ++ ["Building docker image"],
        Except.ok ⟨imageId⟩⟩, [args])

/-! ## The progress-reporting task primitive

The `async` package is not part of the source tree; the task primitive
is modelled from the spec (§4.2, §3 Progress-Reporting Task).  Its
concurrent behaviour is embedded as the sequence of events a consumer
can observe: progress emissions, the closing of the progress channel,
and the delivery of the terminal outcome. -/

/-- An observable event of a progress-reporting task. -/
inductive TaskEvent (P R E : Type) where
  | progress (value : P)
  | closeChannel
  | terminal (outcome : Except E R)
  deriving Repr

/-- Modelled from the spec (§4.2, §5): the observable event trace of a
task whose work procedure emits `emitted` (in emission order) and then
determines the terminal outcome `outcome` — the progress events in
order, then the channel close (which happens only at/after terminal
determination), then the delivery of the terminal outcome to a
consumer that drains the progress sequence to completion. -/
def taskTrace {P R E : Type} (emitted : List P) (outcome : Except E R) :
    List (TaskEvent P R E) :=
  emitted.map TaskEvent.progress ++
    [TaskEvent.closeChannel, TaskEvent.terminal outcome]

/-- Modelled from the spec (§4.2): the lifecycle state of a task — still
running with pending progress values, or done with a recorded terminal
outcome.  The outcome a running task will determine is carried by the
state, standing for the work procedure it was constructed from. -/
inductive TaskState (P R E : Type) where
  | running (pending : List P) (outcome : Except E R)
  | done (outcome : Except E R)
  deriving Repr

/-- Modelled from the spec (§4.2): `Run(work)` constructs and starts the
task from a work procedure, embedded as the progress values it will
emit and the result-or-error it will return. -/
def runTask {P R E : Type} (work : List P × Except E R) : TaskState P R E :=
  TaskState.running work.1 work.2

/-- Modelled from the spec (§4.2): `Await()` blocks until the terminal
state is reached and returns the terminal outcome; afterwards the task
is (and stays) in its terminal state. -/
def await {P R E : Type} : TaskState P R E → Except E R × TaskState P R E
  | TaskState.running _ o => (o, TaskState.done o)
  | TaskState.done o => (o, TaskState.done o)

/-! ## Theorems -/

/-- Evaluating a template without a dollar sign copies it verbatim,
whatever the environment. -/
theorem envsubstChars_no_dollar (getenv : String → String) :
    ∀ l : List Char, '$' ∉ l → envsubstChars getenv l = l := by
  intro l
  induction l with
  | nil => intro _; simp [envsubstChars]
  | cons c cs ih =>
    intro h
    have hc : c ≠ '$' := fun hc => h (by simp [hc])
    have htail : '$' ∉ cs := fun hm => h (List.mem_cons_of_mem _ hm)
    cases cs with
    | nil => simp [envsubstChars]
    | cons c2 cs2 =>
      rw [envsubstChars, if_neg (by simp [hc]), ih htail]

/-- A literal template (one containing no dollar sign) evaluates to
itself under every environment. -/
theorem Envsubst_no_dollar (raw : String) (getenv : String → String)
    (h : '$' ∉ raw.data) : Envsubst raw getenv = raw := by
  unfold Envsubst
  rw [envsubstChars_no_dollar getenv raw.data h]

/-- C9: `parseServiceLanguage` returns the empty kind together with the
error message `unsupported language '<kind>'` for every kind outside
the supported set that is not the `"py"` alias, and returns every
supported kind unchanged with a nil error. -/
theorem parseServiceLanguage_supported_set :
    (∀ kind : ServiceLanguageKind, kind ∉ supportedLanguageKinds →
        kind ≠ "py" →
        parseServiceLanguage kind =
          ("", some ("unsupported language '" ++ kind ++ "'")))
    ∧ ∀ kind ∈ supportedLanguageKinds,
        parseServiceLanguage kind = (kind, none) := by
  constructor
  · intro kind hmem hpy
    simp only [supportedLanguageKinds, ServiceLanguageDotNet,
      ServiceLanguageCsharp, ServiceLanguageFsharp, ServiceLanguageJavaScript,
      ServiceLanguageTypeScript, ServiceLanguagePython, ServiceLanguageJava,
      List.mem_cons, List.mem_singleton, not_or] at hmem
    obtain ⟨h1, h2, h3, h4, h5, h6, h7⟩ := hmem
    simp [parseServiceLanguage, ServiceLanguageDotNet, ServiceLanguageCsharp,
      ServiceLanguageFsharp, ServiceLanguageJavaScript, ServiceLanguageTypeScript,
      ServiceLanguagePython, ServiceLanguageJava, hpy, h1, h2, h3, h4, h5, h6, h7]
  · intro kind hmem
    simp only [supportedLanguageKinds, List.mem_cons, List.not_mem_nil,
      or_false] at hmem
    rcases hmem with h | h | h | h | h | h | h <;> (subst h; decide)

/-- C9 witness: the unknown kind `ruby` is rejected with the
unsupported-language error, and the supported kind `java` is returned
unchanged. -/
theorem parseServiceLanguage_supported_set_witness :
    parseServiceLanguage "ruby" = ("", some "unsupported language 'ruby'")
    ∧ parseServiceLanguage "java" = ("java", none) :=
  ⟨parseServiceLanguage_supported_set.1 "ruby" (by decide) (by decide),
   parseServiceLanguage_supported_set.2 "java" (by decide)⟩

/-- C10: `parseServiceLanguage` maps the `"py"` alias to
`ServiceLanguagePython` with a nil error, and rejects
`ServiceLanguageDocker` — a declared `ServiceLanguageKind` constant —
with the unsupported-language error. -/
theorem parseServiceLanguage_edge_cases :
    parseServiceLanguage "py" = (ServiceLanguagePython, none)
    ∧ parseServiceLanguage ServiceLanguageDocker =
        ("", some "unsupported language 'docker'") := by
  constructor <;> decide

/-- C1: with no explicit tag template and a registry endpoint present in
the environment, the resolved tag is
`<registryEndpoint>/<projectName>/<serviceName>-<environmentName>:azd-deploy-<unixTimestamp>`
with the timestamp taken from the injected clock. -/
theorem resolveImageTag_default (cfg : ServiceConfig) (env : Environment)
    (clockUnix : Int) (endpoint : String)
    (htag : cfg.docker.tag = "")
    (hep : env.values ContainerRegistryEndpointEnvVarName = some endpoint) :
    resolveImageTag cfg env clockUnix =
      Except.ok (endpoint ++ "/" ++ cfg.projectName ++ "/" ++ cfg.name ++
        "-" ++ env.name ++ ":azd-deploy-" ++ toString clockUnix) := by
  simp [resolveImageTag, htag, hep]

/-- C1 witness: registry endpoint `ACR_ENDPOINT`, project `test-app`,
service `api`, environment `test` and a fixed clock at Unix time 0
resolve to `ACR_ENDPOINT/test-app/api-test:azd-deploy-0`. -/
theorem resolveImageTag_default_witness :
    resolveImageTag ⟨"test-app", "api", {}⟩
      ⟨"test", fun key =>
        if key = ContainerRegistryEndpointEnvVarName then some "ACR_ENDPOINT"
        else none⟩ 0 =
      Except.ok "ACR_ENDPOINT/test-app/api-test:azd-deploy-0" :=
  resolveImageTag_default _ _ 0 "ACR_ENDPOINT" rfl (by simp)

/-- C4: an explicit tag template is evaluated against the environment
and its evaluation result is used verbatim; in particular the literal
template `contoso/contoso-image:latest` resolves to exactly that string
for every environment and every clock value. -/
theorem resolveImageTag_explicit :
    (∀ (cfg : ServiceConfig) (env : Environment) (clockUnix : Int),
        cfg.docker.tag ≠ "" →
        resolveImageTag cfg env clockUnix =
          Except.ok (Envsubst cfg.docker.tag env.getenv))
    ∧ ∀ (cfg : ServiceConfig) (env : Environment) (clockUnix : Int),
        cfg.docker.tag = "contoso/contoso-image:latest" →
        resolveImageTag cfg env clockUnix =
          Except.ok "contoso/contoso-image:latest" := by
  constructor
  · intro cfg env clockUnix htag
    simp [resolveImageTag, htag]
  · intro cfg env clockUnix htag
    have hne : cfg.docker.tag ≠ "" := by simp [htag]
    rw [resolveImageTag, if_pos hne, htag,
      Envsubst_no_dollar _ _ (by decide)]

/-- C4 witness: with the explicit template
`contoso/contoso-image:latest`, an empty environment and clock 7, the
resolved tag is exactly the literal template. -/
theorem resolveImageTag_explicit_witness :
    resolveImageTag
      ⟨"test-app", "api", { tag := "contoso/contoso-image:latest" }⟩
      ⟨"test", fun _ => none⟩ 7 =
      Except.ok "contoso/contoso-image:latest" :=
  resolveImageTag_explicit.2 _ _ 7 rfl

/-- C2: in the package stage with no explicit tag template and no
registry endpoint value in the environment, the outcome is the
configuration error naming the missing container registry endpoint, no
package result is produced, and the image-tag tool is invoked zero
times. -/
theorem dockerPackage_missing_registry (cfg : ServiceConfig)
    (env : Environment) (clockUnix : Int) (buildImageId : String)
    (htag : cfg.docker.tag = "")
    (hep : env.values ContainerRegistryEndpointEnvVarName = none) :
    dockerPackage cfg env clockUnix buildImageId =
      (Except.error "could not determine container registry endpoint", []) := by
  simp [dockerPackage, resolveImageTag, htag, hep]

/-- C2 witness: packaging `IMAGE_ID` with an empty environment and no
explicit tag fails with the missing-registry-endpoint error and makes
no image-tag tool invocation. -/
theorem dockerPackage_missing_registry_witness :
    dockerPackage ⟨"test-app", "api", {}⟩ ⟨"test", fun _ => none⟩ 0
        "IMAGE_ID" =
      (Except.error "could not determine container registry endpoint", []) :=
  dockerPackage_missing_registry _ _ 0 "IMAGE_ID" rfl rfl

/-- C3: with dockerfile path and build context unspecified, the
image-build tool is invoked with
`["build","-q","-f","./Dockerfile","--platform",<hostPlatform>,"."]`;
with dockerfile `./Dockerfile.dev` and context `../` it is invoked with
`["build","-q","-f","./Dockerfile.dev","--platform",<hostPlatform>,"../"]`. -/
theorem dockerBuildInvocation_args :
    (∀ hostPlatform : String,
        dockerBuildInvocation {} hostPlatform =
          ["build", "-q", "-f", "./Dockerfile", "--platform", hostPlatform,
           "."])
    ∧ ∀ hostPlatform : String,
        dockerBuildInvocation
            { path := "./Dockerfile.dev", context := "../" } hostPlatform =
          ["build", "-q", "-f", "./Dockerfile.dev", "--platform",
           hostPlatform, "../"] := by
  constructor <;> (intro hostPlatform; rfl)

/-- C3 witness: both invocations at the host platform `amd64`. -/
theorem dockerBuildInvocation_args_witness :
    dockerBuildInvocation {} "amd64" =
      ["build", "-q", "-f", "./Dockerfile", "--platform", "amd64", "."]
    ∧ dockerBuildInvocation
        { path := "./Dockerfile.dev", context := "../" } "amd64" =
      ["build", "-q", "-f", "./Dockerfile.dev", "--platform", "amd64",
       "../"] :=
  ⟨dockerBuildInvocation_args.1 "amd64", dockerBuildInvocation_args.2 "amd64"⟩

/-- C5: when the inner framework's build terminates with an error, the
composite build terminates with that same error (forwarding only the
inner progress) and the image-build tool is invoked zero times. -/
theorem compositeBuild_inner_failure (inner : TaskOutcome ServiceBuildResult)
    (runDockerBuild : List String → Except String String)
    (opts : DockerProjectOptions) (hostPlatform : String) (e : String)
    (h : inner.result = Except.error e) :
    compositeBuild inner runDockerBuild opts hostPlatform =
      (⟨inner.progress, Except.error e⟩, []) := by
  simp [compositeBuild, h]

/-- C5 witness: an inner build failing with `inner build failed` makes
the composite build fail with the same error and zero image-build
invocations, even though the tool itself would have succeeded. -/
theorem compositeBuild_inner_failure_witness :
    compositeBuild ⟨[], Except.error "inner build failed"⟩
        (fun _ => Except.ok "IMAGE_ID") {} "amd64" =
      (⟨[], Except.error "inner build failed"⟩, []) :=
  compositeBuild_inner_failure _ _ _ _ "inner build failed" rfl

/-- C6 counterexample: with an inner build that succeeded after emitting
one progress event of its own and an image-build tool exiting zero, the
composite build emits two progress events, not exactly one. -/
theorem compositeBuild_single_progress_counterexample :
    (compositeBuild ⟨["Running npm build"], Except.ok ⟨"dist"⟩⟩
        (fun _ => Except.ok "IMAGE_ID") {} "amd64").1.progress ≠
      ["Building docker image"] := by
  decide

/-- C6 (amended): when the inner build succeeds and the image-build tool
exits zero, the composite build emits exactly one progress event of its
own — `Building docker image`, appended after the forwarded inner
progress events and before the terminal result — makes exactly one
image-build invocation, and the returned build result's
`BuildOutputPath` is the image identifier produced by the tool. -/
theorem compositeBuild_success (inner : TaskOutcome ServiceBuildResult)
    (runDockerBuild : List String → Except String String)
    (opts : DockerProjectOptions) (hostPlatform : String)
    (r : ServiceBuildResult) (imageId : String)
    (hr : inner.result = Except.ok r)
    (htool : runDockerBuild (dockerBuildInvocation opts hostPlatform) =
      Except.ok imageId) :
    compositeBuild inner runDockerBuild opts hostPlatform =
      (⟨inner.progress ++ ["Building docker image"], Except.ok ⟨imageId⟩⟩,
       [dockerBuildInvocation opts hostPlatform]) := by
  simp [compositeBuild, hr, htool]

/-- C6 witness: an inner build that emitted no progress and succeeded,
with the tool producing `IMAGE_ID`, yields the single progress event
`Building docker image` and a build result locating `IMAGE_ID`. -/
theorem compositeBuild_success_witness :
    compositeBuild ⟨[], Except.ok ⟨"dist"⟩⟩ (fun _ => Except.ok "IMAGE_ID")
        {} "amd64" =
      (⟨["Building docker image"], Except.ok ⟨"IMAGE_ID"⟩⟩,
       [["build", "-q", "-f", "./Dockerfile", "--platform", "amd64", "."]]) :=
  compositeBuild_success _ _ _ _ ⟨"dist"⟩ "IMAGE_ID" rfl rfl

/-- C7: in the observable event trace of a task, the progress channel is
closed exactly once — at the position right after every progress
event — no progress event occurs at or after the close, and exactly one
terminal outcome is delivered, right after the close; hence a consumer
draining the progress sequence receives a finite sequence delivered
entirely before the terminal value becomes observable. -/
theorem taskTrace_channel_invariant {P R E : Type} (emitted : List P)
    (outcome : Except E R) :
    (∀ i : Nat, (taskTrace emitted outcome)[i]? =
        some TaskEvent.closeChannel ↔ i = emitted.length)
    ∧ (∀ (i : Nat) (p : P), (taskTrace emitted outcome)[i]? =
        some (TaskEvent.progress p) → i < emitted.length)
    ∧ ∀ (i : Nat) (r : Except E R), (taskTrace emitted outcome)[i]? =
        some (TaskEvent.terminal r) ↔ i = emitted.length + 1 ∧ r = outcome := by
  have hlen : (emitted.map (TaskEvent.progress (R := R) (E := E))).length =
      emitted.length := List.length_map _ _
  have hlow : ∀ i : Nat, i < emitted.length →
      (taskTrace emitted outcome)[i]? =
        (emitted[i]?).map TaskEvent.progress := by
    intro i hi
    rw [taskTrace, List.getElem?_append_left (by rw [hlen]; exact hi),
      List.getElem?_map]
  have hhigh : ∀ i : Nat, emitted.length ≤ i →
      (taskTrace emitted outcome)[i]? =
        [TaskEvent.closeChannel,
          TaskEvent.terminal outcome][i - emitted.length]? := by
    intro i hi
    rw [taskTrace, List.getElem?_append_right (by rw [hlen]; exact hi), hlen]
  refine ⟨fun i => ⟨fun h => ?_, fun h => ?_⟩, fun i p h => ?_,
    fun i r => ⟨fun h => ?_, fun h => ?_⟩⟩
  · by_contra hne
    rcases Nat.lt_or_ge i emitted.length with hi | hi
    · rw [hlow i hi, List.getElem?_eq_getElem hi] at h
      simp at h
    · rw [hhigh i hi] at h
      have : 1 ≤ i - emitted.length := by omega
      rcases Nat.lt_or_ge (i - emitted.length) 2 with h2 | h2
      · have : i - emitted.length = 1 := by omega
        rw [this] at h
        simp at h
      · rw [List.getElem?_eq_none (by simpa using h2)] at h
        exact Option.noConfusion h
  · subst h
    rw [hhigh emitted.length (Nat.le_refl _), Nat.sub_self]
    rfl
  · by_contra hge
    push_neg at hge
    rw [hhigh i hge] at h
    rcases Nat.lt_or_ge (i - emitted.length) 2 with h2 | h2
    · interval_cases h3 : i - emitted.length <;> simp_all
    · rw [List.getElem?_eq_none (by simpa using h2)] at h
      exact Option.noConfusion h
  · rcases Nat.lt_or_ge i emitted.length with hi | hi
    · rw [hlow i hi, List.getElem?_eq_getElem hi] at h
      simp at h
    · rw [hhigh i hi] at h
      rcases Nat.lt_or_ge (i - emitted.length) 2 with h2 | h2
      · rcases Nat.lt_or_ge (i - emitted.length) 1 with h1 | h1
        · have h0 : i - emitted.length = 0 := by omega
          rw [h0] at h
          simp at h
        · have h1' : i - emitted.length = 1 := by omega
          rw [h1'] at h
          simp only [List.getElem?_cons_succ, List.getElem?_cons_zero,
            Option.some.injEq, TaskEvent.terminal.injEq] at h
          exact ⟨by omega, h.symm⟩
      · rw [List.getElem?_eq_none (by simpa using h2)] at h
        exact Option.noConfusion h
  · obtain ⟨hi, hr⟩ := h
    subst hi
    subst hr
    rw [hhigh (emitted.length + 1) (by omega)]
    have : emitted.length + 1 - emitted.length = 1 := by omega
    rw [this]
    rfl

/-- C7 witness: in the trace of a task that emits the single progress
value `step` and succeeds with `v`, position 1 is the channel close,
the progress event sits strictly before it, and position 2 delivers the
terminal outcome. -/
theorem taskTrace_channel_invariant_witness :
    (taskTrace ["step"] (Except.ok (ε := String) "v"))[1]? =
      some TaskEvent.closeChannel
    ∧ (0 : Nat) < 1
    ∧ (taskTrace ["step"] (Except.ok (ε := String) "v"))[2]? =
      some (TaskEvent.terminal (Except.ok "v")) :=
  ⟨(taskTrace_channel_invariant ["step"] (Except.ok "v")).1 1 |>.mpr rfl,
   (taskTrace_channel_invariant ["step"]
      (Except.ok (ε := String) "v")).2.1 0 "step" rfl,
   (taskTrace_channel_invariant ["step"] (Except.ok "v")).2.2 2 _ |>.mpr
     ⟨rfl, rfl⟩⟩

/-- C8: awaiting a task whose work procedure returns an error yields
exactly that error and never a success value, and repeated awaits on
any task return the same terminal outcome. -/
theorem await_error_and_idempotent {P R E : Type} :
    (∀ (work : List P × Except E R) (e : E), work.2 = Except.error e →
        (await (runTask work)).1 = Except.error e
        ∧ ∀ r : R, (await (runTask work)).1 ≠ Except.ok r)
    ∧ ∀ s : TaskState P R E, (await (await s).2).1 = (await s).1 := by
  constructor
  · intro work e h
    refine ⟨by simp [await, runTask, h], fun r => by simp [await, runTask, h]⟩
  · intro s
    cases s <;> rfl

/-- C8 witness: a task whose work fails with `boom` awaits to exactly
that error and not to the success value `v`, and a second await on a
running task returns the same outcome as the first. -/
theorem await_error_and_idempotent_witness :
    (await (runTask (([] : List String),
        (Except.error "boom" : Except String String)))).1 =
      Except.error "boom"
    ∧ (await (runTask (([] : List String),
        (Except.error "boom" : Except String String)))).1 ≠ Except.ok "v"
    ∧ (await (await (TaskState.running (P := String) ["p"]
        (Except.ok (ε := String) "v"))).2).1 =
      (await (TaskState.running (P := String) ["p"]
        (Except.ok (ε := String) "v"))).1 :=
  ⟨(await_error_and_idempotent.1 _ "boom" rfl).1,
   (await_error_and_idempotent.1 _ "boom" rfl).2 "v",
   await_error_and_idempotent.2 _⟩

end AzdProject
